import Mathlib

/-
Shallow embedding of the SnackBase backend's balance-constrained order
ledger: the data model (product, order, order item, payment, user rows of
the relational store), the Balance Calculator
(src/app/data/access/balance.py, src/app/data/controller/balance.py), the
Order Admission Controller (src/app/data/controller/order.py), the Payment
Lifecycle Manager (src/app/data/controller/payment.py) and the endpoint
wrappers that translate raised exceptions into outward HTTP failures
(src/app/api/endpoints/order.py, payment.py).

Conventions of the embedding:
- monetary values (Python float in the source) are modelled as exact
  rationals; timestamps (datetime.now) are abstract Nat instants passed in
  as `now`;
- a database session is a `DB` value holding the four tables as lists of
  rows; an SQL UPDATE is an explicit map over the table, an INSERT an
  append; auto-generated primary keys are `max existing id + 1`;
- a Python function that can raise returns `Except Err _`; each raise site
  is mapped to its own `Err` constructor (KeyErr for `raise KeyError`,
  AlreadyProcessed / AlreadyDeleted / ProductNotFound / AgeRestricted /
  InsufficientFunds for the distinct `raise ValueError` sites, and
  AttributeError for the unhandled `None.deleted_at` access in
  `get_product_data_by_id`).
-/

namespace App

/-- Row of the `product` table. The columns the ledger logic reads are
`id`, `price`, `age_restrict` and `deleted_at`; `age_restrict` and
`deleted_at` are read by src/app/data/access/product.py and
src/app/data/controller/order.py (the model file in the repository predates
those columns; their use in the access layer fixes their types). Columns
the embedded operations never read (name, type, currency, image_id) are
omitted. -/
structure Product where
  id : Nat
  price : ℚ
  age_restrict : Bool
  deleted_at : Option Nat
deriving Repr, DecidableEq

/-- Row of the `user` table. Modelled from the spec: the table model module
is not among the repository's files; the fields are those read by the
controllers (`user.id`, `user.sub`, `user.age_restrict`,
`user.allowed_overdraw`) and the spec's Account entity (identity linkage,
age-restriction flag, overdraft ceiling). -/
structure User where
  id : Nat
  sub : String
  age_restrict : Bool
  allowed_overdraw : ℚ
deriving Repr, DecidableEq

/-- Row of the `order` table (src/app/data/models/order.py, class Order):
id, user_id, created_at, deleted_at; the items live in the `orderitem`
table and are reached through the relationship. -/
structure Order where
  id : Nat
  user_id : Nat
  created_at : Nat
  deleted_at : Option Nat
deriving Repr, DecidableEq

/-- Row of the `orderitem` table (src/app/data/models/order.py, class
OrderItem): id, order_id, product_id, count. `count` is an int; the
`gt=0` bound is request validation, not a column constraint, so the type
here is Int. -/
structure OrderItem where
  id : Nat
  order_id : Option Nat
  product_id : Nat
  count : Int
deriving Repr, DecidableEq

/-- Row of the `payment` table (src/app/data/models/payment.py, class
Payment). -/
structure Payment where
  id : Nat
  user_id : Nat
  amount : ℚ
  created_at : Nat
  processed_at : Option Nat
  confirmed : Bool
  note : Option String
deriving Repr, DecidableEq

/-- The relational store: one list of rows per table. -/
structure DB where
  products : List Product
  orders : List Order
  order_items : List OrderItem
  payments : List Payment
deriving Repr, DecidableEq

/-- The exceptions the embedded code raises, one constructor per raise
site: `KeyErr` for `raise KeyError` (missing entity / ownership
violation), `AlreadyProcessed` and `AlreadyDeleted` for the bare
`raise ValueError` in payment processing and order deletion,
`ProductNotFound` / `AgeRestricted` / `InsufficientFunds` for the three
`raise ValueError(msg)` sites of `create_order`, `AttributeError` for the
unhandled attribute access on None in `get_product_data_by_id`, and
`Validation` for a pydantic request-validation failure at the endpoint
boundary. -/
inductive Err where
  | KeyErr
  | AlreadyProcessed
  | AlreadyDeleted
  | ProductNotFound (product_id : Nat)
  | AgeRestricted
  | InsufficientFunds
  | AttributeError
  | Validation
deriving Repr, DecidableEq

/-- From src/app/data/access/product.py, `get_product_data_by_id`:
`product = session.get(Product, id)`; then, when `include_deleted` is
false, the code reads `product.deleted_at` — an unhandled AttributeError
when `product` is None — and returns None only for a row whose
`deleted_at` is set; otherwise the row (or the None from `session.get`
when `include_deleted` is true) is returned. -/
def get_product_data_by_id (id : Nat) (include_deleted : Bool) (db : DB) :
    Except Err (Option Product) :=
  match db.products.find? (fun p => p.id == id) with
  | none =>
    if include_deleted then Except.ok none else Except.error Err.AttributeError
  | some p =>
    if !include_deleted && p.deleted_at.isSome then Except.ok none
    else Except.ok (some p)

/-- From src/app/data/access/balance.py, `get_expenses_by_user_data`: the SQL
join `select(OrderItem.count, Product.price) where Order.user_id == uid
and Order.id == OrderItem.order_id and OrderItem.product_id == Product.id`,
summed as `sum(c * p)`. Note: the query has no `deleted_at` filter, so
soft-deleted orders are included. -/
def get_expenses_by_user_data (uid : Nat) (db : DB) : ℚ :=
  ((db.orders.filter (fun o => o.user_id == uid)).flatMap (fun o =>
    (db.order_items.filter (fun oi => oi.order_id == some o.id)).flatMap (fun oi =>
      (db.products.filter (fun p => p.id == oi.product_id)).map (fun p =>
        (oi.count : ℚ) * p.price)))).sum

/-- From src/app/data/access/balance.py, `get_payments_by_user_data`:
`select(func.sum(Payment.amount)) where Payment.user_id == uid`, and when
`include_pending` is false also `where processed_at != NULL`; a NULL sum
(no rows) is returned as 0. Note: the filter is on `processed_at` only,
not on `confirmed`, so processed-but-declined payments are included. -/
def get_payments_by_user_data (uid : Nat) (include_pending : Bool) (db : DB) : ℚ :=
  ((db.payments.filter (fun p =>
    p.user_id == uid && (include_pending || p.processed_at.isSome))).map
      Payment.amount).sum

/-- From src/app/data/controller/balance.py, `get_balance_by_user`: payment
total minus expenses total. -/
def get_balance_by_user (uid : Nat) (db : DB) : ℚ :=
  get_payments_by_user_data uid false db - get_expenses_by_user_data uid db

/-- The Balance Calculator contract as the SPEC words it (for comparison
with `get_balance_by_user`, which is translated from the source):
`balance = Σ confirmed-payment.amount (confirmed == true and
processedAt != null) − Σ (order-line.price × order-line.quantity) over all
non-deleted orders (deletedAt IS NULL) of the account`. -/
def spec_balance (uid : Nat) (db : DB) : ℚ :=
  ((db.payments.filter (fun p =>
    p.user_id == uid && p.confirmed && p.processed_at.isSome)).map
      Payment.amount).sum
  - ((db.orders.filter (fun o => o.user_id == uid && o.deleted_at.isNone)).flatMap (fun o =>
      (db.order_items.filter (fun oi => oi.order_id == some o.id)).flatMap (fun oi =>
        (db.products.filter (fun p => p.id == oi.product_id)).map (fun p =>
          (oi.count : ℚ) * p.price)))).sum

/-- Request body of `POST /orders` (src/app/data/models/order.py,
OrderItemCreate): product_id and count. pydantic validates `count > 0`
(`Field(gt=0)`) at the endpoint boundary; the raw field is an int. -/
structure OrderItemCreate where
  product_id : Nat
  count : Int
deriving Repr, DecidableEq

/-- Request body of `POST /orders` (src/app/data/models/order.py,
OrderCreate): a list of items, validated non-empty (`min_items=1`). -/
structure OrderCreate where
  items : List OrderItemCreate
deriving Repr, DecidableEq

/-- The pydantic validation of OrderCreate: `items` non-empty and every
item's `count` strictly positive. FastAPI runs it before the endpoint
body, so an invalid request never reaches `create_order`. -/
def order_create_valid (o : OrderCreate) : Bool :=
  !o.items.isEmpty && o.items.all (fun it => decide (0 < it.count))

/-- The pydantic validation of PaymentCreate
(src/app/data/models/payment.py): `amount` strictly positive
(`Field(gt=0)`). -/
def payment_create_valid (amount : ℚ) : Bool :=
  decide (0 < amount)

/-- Auto-generated primary key for a new `order` row. -/
def next_order_id (db : DB) : Nat :=
  db.orders.foldl (fun m o => max m o.id) 0 + 1

/-- Auto-generated primary key for a new `orderitem` row. -/
def next_order_item_id (db : DB) : Nat :=
  db.order_items.foldl (fun m oi => max m oi.id) 0 + 1

/-- Auto-generated primary key for a new `payment` row. -/
def next_payment_id (db : DB) : Nat :=
  db.payments.foldl (fun m p => max m p.id) 0 + 1

/-- The item loop of src/app/data/controller/order.py, `create_order`
(lines 25-37): for each item in list order, resolve the product via
`get_product_data_by_id` (an exception propagates), fail with
ProductNotFound when the lookup returns None, fail with AgeRestricted when
the resolved product and the user are both age-restricted, and accumulate
`total += product.price * item.count`. -/
def resolve_items (db : DB) (user_age_restrict : Bool) :
    List OrderItemCreate → Except Err ℚ
  | [] => Except.ok 0
  | item :: rest =>
    match get_product_data_by_id item.product_id false db with
    | Except.error e => Except.error e
    | Except.ok none => Except.error (Err.ProductNotFound item.product_id)
    | Except.ok (some product) =>
      if product.age_restrict && user_age_restrict then
        Except.error Err.AgeRestricted
      else
        match resolve_items db user_age_restrict rest with
        | Except.error e => Except.error e
        | Except.ok t => Except.ok (product.price * (item.count : ℚ) + t)

/-- From src/app/data/controller/order.py, `create_order`: resolve the items
(errors propagate), build the order row and its item rows, re-derive the
balance, reject with InsufficientFunds when
`current_balance - total + user.allowed_overdraw < 0`, else persist the
order and its items (`create_order_data`: add + commit) and return it. -/
def create_order (order : OrderCreate) (user : User) (now : Nat) (db : DB) :
    Except Err (DB × Order) :=
  match resolve_items db user.age_restrict order.items with
  | Except.error e => Except.error e
  | Except.ok total =>
    let current_balance := get_balance_by_user user.id db
    if current_balance - total + user.allowed_overdraw < 0 then
      Except.error Err.InsufficientFunds
    else
      let oid := next_order_id db
      let order_db : Order :=
        { id := oid, user_id := user.id, created_at := now, deleted_at := none }
      let new_items : List OrderItem :=
        order.items.enum.map (fun x =>
          { id := next_order_item_id db + x.1, order_id := some oid,
            product_id := x.2.product_id, count := x.2.count })
      Except.ok
        ({ db with
            orders := db.orders ++ [order_db],
            order_items := db.order_items ++ new_items },
         order_db)

/-- From src/app/data/controller/order.py, `delete_order_by_id` together with
src/app/data/access/order.py, `delete_order_data`: KeyError when no order
has the id, ValueError (AlreadyDeleted) when `deleted_at` is already set,
otherwise set `deleted_at = now` and commit. -/
def delete_order_by_id (id : Nat) (now : Nat) (db : DB) :
    Except Err (DB × Order) :=
  match db.orders.find? (fun o => o.id == id) with
  | none => Except.error Err.KeyErr
  | some o =>
    if o.deleted_at.isSome then Except.error Err.AlreadyDeleted
    else
      let o2 : Order := { o with deleted_at := some now }
      Except.ok ({ db with
        orders := db.orders.map (fun x => if x.id == id then o2 else x) }, o2)

/-- From src/app/data/controller/payment.py, `update_payment_by_id`: KeyError
when no payment has the id, ValueError (AlreadyProcessed) when
`processed_at` is already set, otherwise set `confirmed`, `note` and
`processed_at = now` and commit (`upsert_payment_data`). -/
def update_payment_by_id (id : Nat) (confirmed : Bool) (note : Option String)
    (now : Nat) (db : DB) : Except Err (DB × Payment) :=
  match db.payments.find? (fun p => p.id == id) with
  | none => Except.error Err.KeyErr
  | some p =>
    if p.processed_at.isSome then Except.error Err.AlreadyProcessed
    else
      let p2 : Payment :=
        { p with confirmed := confirmed, note := note, processed_at := some now }
      Except.ok ({ db with
        payments := db.payments.map (fun x => if x.id == id then p2 else x) }, p2)

/-- From src/app/data/controller/payment.py, `create_payment`: always admitted;
a new pending row (`processed_at = None`, `confirmed = False`,
`note = None`) is inserted. -/
def create_payment (amount : ℚ) (user : User) (now : Nat) (db : DB) :
    DB × Payment :=
  let p : Payment :=
    { id := next_payment_id db, user_id := user.id, amount := amount,
      created_at := now, processed_at := none, confirmed := false, note := none }
  ({ db with payments := db.payments ++ [p] }, p)

/-- The `user.orders` relationship: the user's order rows. -/
def user_orders (u : User) (db : DB) : List Order :=
  db.orders.filter (fun o => o.user_id == u.id)

/-- From src/app/data/controller/order.py, `get_order_by_id`: None when no
order has the id; KeyError when the requester is not an admin, is present,
and the order is not among the requester's orders; else the order. -/
def get_order_by_id (id : Nat) (user : Option User) (admin_access : Bool)
    (db : DB) : Except Err (Option Order) :=
  match db.orders.find? (fun o => o.id == id) with
  | none => Except.ok none
  | some o =>
    match user with
    | some u =>
      if admin_access = false ∧ o ∉ user_orders u db then Except.error Err.KeyErr
      else Except.ok (some o)
    | none => Except.ok (some o)

/-- The outward shape of an HTTP failure: status code and detail string
(fastapi HTTPException). -/
structure HTTPFailure where
  status_code : Nat
  detail : String
deriving Repr, DecidableEq

/-- From src/app/api/endpoints/order.py, `_order_not_found_exception`: 404 with
detail naming the requested id. -/
def order_not_found_exception (id : Nat) : HTTPFailure :=
  { status_code := 404, detail := "No order found with given id " ++ toString id }

/-- From src/app/api/endpoints/order.py, `_get_order_by_id`: the controller's
KeyError and its None result are both translated to the same
`order_not_found_exception id`. -/
def get_order_by_id_endpoint (id : Nat) (user : Option User)
    (admin_access : Bool) (db : DB) : Except HTTPFailure Order :=
  match get_order_by_id id user admin_access db with
  | Except.error _ => Except.error (order_not_found_exception id)
  | Except.ok none => Except.error (order_not_found_exception id)
  | Except.ok (some o) => Except.ok o

/-- From src/app/api/endpoints/order.py, `create_new_order_endpoint`, with the
pydantic validation of the OrderCreate body run first (FastAPI rejects an
invalid body before the handler): the pair is (outward result, store after
the call). -/
def create_new_order_endpoint (o : OrderCreate) (user : User) (now : Nat)
    (db : DB) : Except Err Order × DB :=
  if order_create_valid o then
    match create_order o user now db with
    | Except.error e => (Except.error e, db)
    | Except.ok (db2, ord) => (Except.ok ord, db2)
  else (Except.error Err.Validation, db)

/-- From src/app/api/endpoints/payment.py, `create_payment_endpoint`, with the
pydantic validation of the PaymentCreate body run first. -/
def create_payment_endpoint (amount : ℚ) (user : User) (now : Nat)
    (db : DB) : Except Err Payment × DB :=
  if payment_create_valid amount then
    let r := create_payment amount user now db
    (Except.ok r.2, r.1)
  else (Except.error Err.Validation, db)

/-! ### Concrete stores used to evaluate the embedded code -/

/-- Store for C1: one processed-but-declined payment of 10 and one
soft-deleted order of one line (price 5, count 1), both of account 1. -/
def db_c1 : DB :=
  ⟨[⟨1, 5, false, none⟩], [⟨1, 1, 0, some 3⟩], [⟨1, some 1, 1, 1⟩],
   [⟨1, 1, 10, 0, some 1, false, none⟩]⟩

/-- Store for C2's witness: one product of price 30; account 1 has no
payments and no orders, so its balance is 0. -/
def db_c2 : DB := ⟨[⟨1, 30, false, none⟩], [], [], []⟩

/-- The account of C2's witness: balance 0, overdraft ceiling 30. -/
def user_c2 : User := ⟨1, "w2", false, 30⟩

/-- Store for C3: one active order of account 1, one line of price 5,
count 1; no payments, so the balance is -5. -/
def db_c3 : DB :=
  ⟨[⟨1, 5, false, none⟩], [⟨1, 1, 0, none⟩], [⟨1, some 1, 1, 1⟩], []⟩

/-- The store `delete_order_by_id 1 7 db_c3` produces: the order row with
`deleted_at = 7`. -/
def db_c3_after : DB :=
  ⟨[⟨1, 5, false, none⟩], [⟨1, 1, 0, some 7⟩], [⟨1, some 1, 1, 1⟩], []⟩

/-- Store for C4's witness: one pending payment of 10 for account 1. -/
def db_c4 : DB := ⟨[], [], [], [⟨1, 1, 10, 0, none, false, none⟩]⟩

/-- Store for C5: empty product catalog, so product id 7 has no row. -/
def db_c5 : DB := ⟨[], [], [], []⟩

/-- Store for C6's counterexample: product 1 is active and age-restricted;
product 2 exists but is soft-deleted (the unresolvable case that reaches
`create_order`'s None check). -/
def db_c6 : DB := ⟨[⟨1, 2, true, none⟩, ⟨2, 3, false, some 0⟩], [], [], []⟩

/-- The age-restricted account of C6's counterexample. -/
def user_c6 : User := ⟨1, "c6", true, 30⟩

/-- Store for C6's amended witness: product 1 active and unrestricted,
product 3 soft-deleted. -/
def db_c6w : DB :=
  ⟨[⟨1, 2, false, none⟩, ⟨2, 3, true, none⟩, ⟨3, 1, false, some 0⟩], [], [], []⟩

/-- Store for C7's witness: order 1 belongs to account 2; the requester is
account 1. -/
def db_c7 : DB := ⟨[], [⟨1, 2, 0, none⟩], [], []⟩

/-- The non-admin requester of C7's witness. -/
def user_c7 : User := ⟨1, "c7", false, 30⟩

/-- The IEEE-754 binary64 value actually denoted by the Python literal
0.1 (payment amounts and product prices are Python `float` columns):
3602879701896397 × 2⁻⁵⁵, which is not 1/10. -/
def pyfloat_0_1 : ℚ := 3602879701896397 / 2 ^ 55

/-- The IEEE-754 binary64 value actually denoted by the Python literal
0.2: 3602879701896397 × 2⁻⁵⁴. -/
def pyfloat_0_2 : ℚ := 3602879701896397 / 2 ^ 54

/-- Store for C9: two confirmed processed payments whose amounts are the
binary64 values the code stores for the request literals 0.1 and 0.2. -/
def db_c9 : DB :=
  ⟨[], [], [],
   [⟨1, 1, pyfloat_0_1, 0, some 1, true, none⟩,
    ⟨2, 1, pyfloat_0_2, 0, some 2, true, none⟩]⟩

/-! ### Shared helper lemmas -/

/-- A resolution error of the item loop is the result of `create_order`. -/
theorem create_order_error_of_resolve (o : OrderCreate) (u : User) (now : Nat)
    (db : DB) (e : Err)
    (h : resolve_items db u.age_restrict o.items = Except.error e) :
    create_order o u now db = Except.error e := by
  unfold create_order
  rw [h]

/-- Prepending items that all resolve and pass the age check preserves a
resolution error of the remaining items. -/
theorem resolve_items_append_error (db : DB) (uar : Bool) (e : Err) :
    ∀ (pre rest : List OrderItemCreate),
      (∀ it ∈ pre, ∃ p,
        get_product_data_by_id it.product_id false db = Except.ok (some p)
          ∧ (p.age_restrict && uar) = false) →
      resolve_items db uar rest = Except.error e →
      resolve_items db uar (pre ++ rest) = Except.error e := by
  intro pre
  induction pre with
  | nil => intro rest _ hrest; simpa using hrest
  | cons a t ih =>
    intro rest hpre hrest
    obtain ⟨p, hp, hblock⟩ := hpre a (List.mem_cons_self a t)
    have htail := ih rest (fun it hit => hpre it (List.mem_cons_of_mem a hit)) hrest
    show resolve_items db uar (a :: (t ++ rest)) = Except.error e
    unfold resolve_items
    rw [hp]
    dsimp only
    rw [if_neg (by simp [hblock]), htail]

/-! ### The claims -/

/-- C1: the claim states the balance is confirmed payments minus
non-deleted-order consumption. Evaluating the embedded code on `db_c1`
(one processed-but-DECLINED payment of 10, one SOFT-DELETED order of
total 5): `get_balance_by_user` — which filters payments on
`processed_at` only and orders not at all — returns 10 − 5 = 5, while the
spec's formula gives 0 − 0 = 0. The code counts declined payments and
soft-deleted orders. -/
theorem C1_balance_code_vs_spec :
    get_balance_by_user 1 db_c1 = 5 ∧ spec_balance 1 db_c1 = 0 := by
  constructor <;>
    norm_num [get_balance_by_user, get_payments_by_user_data,
      get_expenses_by_user_data, spec_balance, db_c1]

/-- C2: with every product of the order resolved and past the age check
(hypothesis: the item loop returned `total`), `create_order` admits the
order if and only if `current_balance - total + allowed_overdraw >= 0`
(the boundary `= 0` inclusive), and rejects with InsufficientFunds
otherwise. -/
theorem C2_admission_iff (db : DB) (u : User) (o : OrderCreate) (now : Nat)
    (total : ℚ)
    (h : resolve_items db u.age_restrict o.items = Except.ok total) :
    ((∃ r, create_order o u now db = Except.ok r) ↔
      0 ≤ get_balance_by_user u.id db - total + u.allowed_overdraw)
    ∧ (get_balance_by_user u.id db - total + u.allowed_overdraw < 0 →
      create_order o u now db = Except.error Err.InsufficientFunds) := by
  unfold create_order
  rw [h]
  dsimp only
  by_cases hb : get_balance_by_user u.id db - total + u.allowed_overdraw < 0
  · rw [if_pos hb]
    refine ⟨⟨fun hr => ?_, fun h0 => absurd hb (not_lt.mpr h0)⟩, fun _ => rfl⟩
    obtain ⟨r, hr⟩ := hr
    exact Except.noConfusion hr
  · rw [if_neg hb]
    exact ⟨iff_of_true ⟨_, rfl⟩ (not_lt.mp hb), fun hlt => absurd hlt hb⟩

/-- Witness for C2 at the inclusive boundary: account with balance 0 and
ceiling 30 orders one product of price 30 (total = balance + ceiling);
the order is admitted. -/
theorem C2_admission_iff_witness :
    ∃ r, create_order ⟨[⟨1, 1⟩]⟩ user_c2 0 db_c2 = Except.ok r :=
  ((C2_admission_iff db_c2 user_c2 ⟨[⟨1, 1⟩]⟩ 0 30
      (by norm_num [resolve_items, get_product_data_by_id, db_c2, user_c2])).1).mpr
    (by norm_num [get_balance_by_user, get_payments_by_user_data,
      get_expenses_by_user_data, db_c2, user_c2])

/-- C3: the claim states deleting a non-deleted order increases the
balance by the order's total on the next read. Evaluating the embedded
code on `db_c3` (one active order of total 5, no payments, balance -5):
the delete succeeds and sets `deleted_at`, a second delete fails with
AlreadyDeleted, but the balance after the delete is still -5, not -5 + 5 =
0 — the expenses query has no `deleted_at` filter, so a soft-deleted order
keeps counting against the balance. -/
theorem C3_soft_delete_balance_unchanged :
    delete_order_by_id 1 7 db_c3 = Except.ok (db_c3_after, ⟨1, 1, 0, some 7⟩)
    ∧ get_balance_by_user 1 db_c3 = -5
    ∧ get_balance_by_user 1 db_c3_after = -5
    ∧ delete_order_by_id 1 8 db_c3_after = Except.error Err.AlreadyDeleted := by
  refine ⟨rfl, ?_, ?_, rfl⟩ <;>
    norm_num [get_balance_by_user, get_payments_by_user_data,
      get_expenses_by_user_data, db_c3, db_c3_after]

/-- C5: the claim states an order naming a product id with no record fails
with ProductNotFound. Evaluating the embedded code on an empty catalog:
`create_order` for product id 7 propagates the AttributeError of
`get_product_data_by_id` (which reads `.deleted_at` of the None returned
by `session.get`) instead of reaching its ProductNotFound check. -/
theorem C5_missing_product_crashes :
    create_order ⟨[⟨7, 1⟩]⟩ ⟨1, "c5", false, 30⟩ 0 db_c5
      = Except.error Err.AttributeError
    ∧ create_order ⟨[⟨7, 1⟩]⟩ ⟨1, "c5", false, 30⟩ 0 db_c5
      ≠ Except.error (Err.ProductNotFound 7) := by
  refine ⟨rfl, fun hcontra => ?_⟩
  have h1 : create_order ⟨[⟨7, 1⟩]⟩ ⟨1, "c5", false, 30⟩ 0 db_c5
      = Except.error Err.AttributeError := rfl
  rw [h1] at hcontra
  exact Except.noConfusion hcontra (fun he => Err.noConfusion he)

/-- C9: the claim states monetary values are decimal fixed-point, never
binary floating point. The code stores amounts and prices as Python
`float` (IEEE-754 binary64): the stored value for the request literal 0.1
is 3602879701896397·2⁻⁵⁵ ≠ 1/10, and the balance over confirmed payments
of 0.1 and 0.2 is their binary64 sum, which is not the decimal 3/10. -/
theorem C9_float_amounts_not_decimal :
    pyfloat_0_1 ≠ 1 / 10
    ∧ get_balance_by_user 1 db_c9 = pyfloat_0_1 + pyfloat_0_2
    ∧ get_balance_by_user 1 db_c9 ≠ 3 / 10 := by
  refine ⟨?_, ?_, ?_⟩ <;>
    norm_num [get_balance_by_user, get_payments_by_user_data,
      get_expenses_by_user_data, db_c9, pyfloat_0_1, pyfloat_0_2]

/-- C10: for a product id with no row, `get_product_data_by_id` (with
`include_deleted` false as `create_order` calls it) hits the unhandled
attribute access on None and fails with AttributeError rather than
returning None; and a None result is only reachable for a row that exists
and is soft-deleted. -/
theorem C10_lookup_crashes_on_missing (db : DB) (id : Nat) :
    (db.products.find? (fun p => p.id == id) = none →
      get_product_data_by_id id false db = Except.error Err.AttributeError)
    ∧ (get_product_data_by_id id false db = Except.ok none →
      ∃ p, db.products.find? (fun p0 => p0.id == id) = some p
        ∧ p.deleted_at ≠ none) := by
  constructor
  · intro h
    unfold get_product_data_by_id
    rw [h]
    simp
  · intro h
    unfold get_product_data_by_id at h
    cases hf : db.products.find? (fun p => p.id == id) with
    | none =>
      rw [hf] at h
      simp at h
    | some p =>
      rw [hf] at h
      dsimp only at h
      by_cases hd : p.deleted_at.isSome
      · exact ⟨p, rfl, Option.isSome_iff_ne_none.mp hd⟩
      · rw [if_neg (by simp [hd])] at h
        simp at h

/-- Witness for C10: on the empty catalog, looking up product 7 the way
`create_order` does yields AttributeError. -/
theorem C10_lookup_crashes_witness :
    get_product_data_by_id 7 false db_c5 = Except.error Err.AttributeError :=
  (C10_lookup_crashes_on_missing db_c5 7).1 rfl

/-- C6 counterexample: in `db_c6`, item 1 resolves to an age-restricted
product and item 2 is unresolvable (soft-deleted); the requester is
age-restricted. The claim predicts ProductNotFound(2); the code checks
each item in list order — existence then restriction per item — and
reports AgeRestricted for item 1 before ever resolving item 2. -/
theorem C6_counterexample :
    get_product_data_by_id 2 false db_c6 = Except.ok none
    ∧ create_order ⟨[⟨1, 1⟩, ⟨2, 1⟩]⟩ user_c6 0 db_c6
        = Except.error Err.AgeRestricted
    ∧ create_order ⟨[⟨1, 1⟩, ⟨2, 1⟩]⟩ user_c6 0 db_c6
        ≠ Except.error (Err.ProductNotFound 2) := by
  refine ⟨rfl, rfl, fun hcontra => ?_⟩
  have h1 : create_order ⟨[⟨1, 1⟩, ⟨2, 1⟩]⟩ user_c6 0 db_c6
      = Except.error Err.AgeRestricted := rfl
  rw [h1] at hcontra
  exact Except.noConfusion hcontra (fun he => Err.noConfusion he)

/-- C6 amended: the checks are per item, in list order — for each item
existence first, then restriction — and an earlier item's failure is
reported before a later item is examined. So when every item before
position k resolves and passes the age check: if item k is unresolvable
the result is ProductNotFound(its id) whatever follows, and if item k
resolves to an age-restricted product while the account is age-restricted
the result is AgeRestricted whatever follows. -/
theorem C6_amended_per_item_checks (db : DB) (u : User) (now : Nat)
    (pre post : List OrderItemCreate) (item : OrderItemCreate)
    (hpre : ∀ it ∈ pre, ∃ p,
      get_product_data_by_id it.product_id false db = Except.ok (some p)
        ∧ (p.age_restrict && u.age_restrict) = false) :
    (get_product_data_by_id item.product_id false db = Except.ok none →
      create_order ⟨pre ++ item :: post⟩ u now db
        = Except.error (Err.ProductNotFound item.product_id))
    ∧ (∀ p, get_product_data_by_id item.product_id false db
          = Except.ok (some p) →
        (p.age_restrict && u.age_restrict) = true →
        create_order ⟨pre ++ item :: post⟩ u now db
          = Except.error Err.AgeRestricted) := by
  constructor
  · intro h
    apply create_order_error_of_resolve
    apply resolve_items_append_error db u.age_restrict _ pre _ hpre
    unfold resolve_items
    rw [h]
  · intro p hp hblock
    apply create_order_error_of_resolve
    apply resolve_items_append_error db u.age_restrict _ pre _ hpre
    unfold resolve_items
    rw [hp]
    dsimp only
    rw [if_pos hblock]

/-- Witness for C6's amended claim: item 1 resolves unrestricted, item 2
(product 3) is unresolvable; the order fails with ProductNotFound(3). -/
theorem C6_amended_witness :
    create_order ⟨[⟨1, 1⟩, ⟨3, 2⟩]⟩ ⟨1, "w6", true, 30⟩ 0 db_c6w
      = Except.error (Err.ProductNotFound 3) :=
  (C6_amended_per_item_checks db_c6w ⟨1, "w6", true, 30⟩ 0 [⟨1, 1⟩] [] ⟨3, 2⟩
    (by
      intro it hit
      have h1 : it = ⟨1, 1⟩ := by simpa using hit
      subst h1
      exact ⟨⟨1, 2, false, none⟩, rfl, rfl⟩)).1 rfl

/-- C7: a non-admin requester fetching an order of another account gets
exactly the same outward failure — HTTP 404 with the detail naming the
requested id — as fetching from a store in which no order has that id:
the two runs of the endpoint are equal, so the lookup never confirms the
other account's order exists. -/
theorem C7_ownership_indistinguishable (db db2 : DB) (id : Nat) (u : User)
    (o : Order)
    (hfind : db.orders.find? (fun x => x.id == id) = some o)
    (howner : o.user_id ≠ u.id)
    (habsent : db2.orders.find? (fun x => x.id == id) = none) :
    get_order_by_id_endpoint id (some u) false db
      = Except.error (order_not_found_exception id)
    ∧ get_order_by_id_endpoint id (some u) false db2
      = get_order_by_id_endpoint id (some u) false db := by
  have hnotmem : o ∉ user_orders u db := by
    intro hmem
    exact howner (by simpa using (List.mem_filter.mp hmem).2)
  have h1 : get_order_by_id id (some u) false db = Except.error Err.KeyErr := by
    unfold get_order_by_id
    rw [hfind]
    dsimp only
    rw [if_pos ⟨rfl, hnotmem⟩]
  have h2 : get_order_by_id id (some u) false db2 = Except.ok none := by
    unfold get_order_by_id
    rw [habsent]
  have e1 : get_order_by_id_endpoint id (some u) false db
      = Except.error (order_not_found_exception id) := by
    unfold get_order_by_id_endpoint
    rw [h1]
  have e2 : get_order_by_id_endpoint id (some u) false db2
      = Except.error (order_not_found_exception id) := by
    unfold get_order_by_id_endpoint
    rw [h2]
  exact ⟨e1, e2.trans e1.symm⟩

/-- Witness for C7: account 1 requests order 1, which belongs to account
2; the outward failure equals the one for the empty store. -/
theorem C7_ownership_witness :
    get_order_by_id_endpoint 1 (some user_c7) false db_c7
      = Except.error (order_not_found_exception 1)
    ∧ get_order_by_id_endpoint 1 (some user_c7) false db_c5
      = get_order_by_id_endpoint 1 (some user_c7) false db_c7 :=
  C7_ownership_indistinguishable db_c7 db_c5 1 user_c7 ⟨1, 2, 0, none⟩ rfl
    (by decide) rfl

/-- C8: an order request with an empty item list or a non-positive line
quantity, and a payment request with a non-positive amount, fail the
pydantic validation run before the endpoint body, so the outward result
is a validation failure and the store is returned unchanged — no order or
payment row is created. -/
theorem C8_validation_rejected (o : OrderCreate) (amount : ℚ) (u : User)
    (now : Nat) (db : DB) :
    (o.items = [] →
      create_new_order_endpoint o u now db = (Except.error Err.Validation, db))
    ∧ (∀ it, it ∈ o.items → it.count ≤ 0 →
      create_new_order_endpoint o u now db = (Except.error Err.Validation, db))
    ∧ (amount ≤ 0 →
      create_payment_endpoint amount u now db
        = (Except.error Err.Validation, db)) := by
  refine ⟨?_, ?_, ?_⟩
  · intro h
    unfold create_new_order_endpoint
    rw [if_neg (by simp [order_create_valid, h])]
  · intro it hit hcount
    unfold create_new_order_endpoint
    rw [if_neg]
    intro hvalid
    rw [order_create_valid, Bool.and_eq_true, List.all_eq_true] at hvalid
    have := hvalid.2 it hit
    simp at this
    exact absurd hcount (not_le.mpr this)
  · intro h
    unfold create_payment_endpoint
    rw [if_neg (by simp [payment_create_valid, not_lt.mpr h])]

/-- Witness for C8: the empty item list, a zero quantity, and a negative
amount are each rejected with the store unchanged. -/
theorem C8_validation_witness :
    create_new_order_endpoint ⟨[]⟩ user_c2 0 db_c2
      = (Except.error Err.Validation, db_c2)
    ∧ create_new_order_endpoint ⟨[⟨1, 0⟩]⟩ user_c2 0 db_c2
      = (Except.error Err.Validation, db_c2)
    ∧ create_payment_endpoint (-5) user_c2 0 db_c2
      = (Except.error Err.Validation, db_c2) :=
  ⟨(C8_validation_rejected ⟨[]⟩ 1 user_c2 0 db_c2).1 rfl,
   (C8_validation_rejected ⟨[⟨1, 0⟩]⟩ 1 user_c2 0 db_c2).2.1 ⟨1, 0⟩
     (by simp) (by norm_num),
   (C8_validation_rejected ⟨[]⟩ (-5) user_c2 0 db_c2).2.2 (by norm_num)⟩

/-- An update keyed on an id leaves a list without that id unchanged. -/
theorem map_update_id_of_not_mem (l : List Payment) (i : Nat) (p2 : Payment)
    (h : ∀ x ∈ l, x.id ≠ i) :
    l.map (fun x => if x.id == i then p2 else x) = l := by
  induction l with
  | nil => rfl
  | cons a t ih =>
    simp only [List.map_cons]
    rw [if_neg (by simp [h a (List.mem_cons_self a t)]),
      ih (fun x hx => h x (List.mem_cons_of_mem a hx))]

/-- Marking the pending payment found by id as processed adds exactly its
amount to the processed-payment sum of its account, when primary keys are
unique. -/
theorem payments_sum_update (i uid : Nat) (p2 : Payment)
    (hu2 : p2.user_id = uid) (hp2 : p2.processed_at.isSome = true) :
    ∀ (l : List Payment) (p : Payment),
      l.find? (fun x => x.id == i) = some p →
      List.Pairwise (fun a b => a.id ≠ b.id) l →
      p.user_id = uid → p.processed_at = none →
      (((l.map (fun x => if x.id == i then p2 else x)).filter
          (fun x => x.user_id == uid && x.processed_at.isSome)).map
            Payment.amount).sum
        = ((l.filter (fun x => x.user_id == uid && x.processed_at.isSome)).map
            Payment.amount).sum + p2.amount := by
  intro l
  induction l with
  | nil =>
    intro p hf
    simp at hf
  | cons a t ih =>
    intro p hf hpw hpu hpn
    obtain ⟨hpw1, hpwt⟩ := List.pairwise_cons.mp hpw
    by_cases ha : (a.id == i) = true
    · rw [List.find?_cons_of_pos t ha] at hf
      have hap : a = p := by injection hf
      subst hap
      have hai : a.id = i := by simpa using ha
      have hmapt : t.map (fun x => if x.id == i then p2 else x) = t :=
        map_update_id_of_not_mem t i p2
          (fun x hx => fun hxi => hpw1 x hx (hai.trans hxi.symm))
      have hca : (a.user_id == uid && a.processed_at.isSome) = false := by
        simp [hpn]
      have hcp2 : (p2.user_id == uid && p2.processed_at.isSome) = true := by
        simp [hu2, hp2]
      simp only [List.map_cons, if_pos ha, hmapt, List.filter_cons, hca, hcp2,
        Bool.false_eq_true, if_true, if_false, List.sum_cons]
      ring
    · rw [List.find?_cons_of_neg t ha] at hf
      have htail := ih p hf hpwt hpu hpn
      simp only [List.map_cons, if_neg ha, List.filter_cons]
      by_cases hc : (a.user_id == uid && a.processed_at.isSome) = true
      · simp only [hc, if_true, List.map_cons, List.sum_cons]
        rw [htail]
        ring
      · have hc2 : (a.user_id == uid && a.processed_at.isSome) = false := by
          simpa using hc
        simp only [hc2, if_false]
        exact htail

/-- After the keyed update, the find?-by-id of the list returns the
updated row. -/
theorem find?_map_update (i : Nat) (p2 : Payment) (hid : p2.id = i) :
    ∀ (l : List Payment) (p : Payment),
      l.find? (fun x => x.id == i) = some p →
      (l.map (fun x => if x.id == i then p2 else x)).find?
        (fun x => x.id == i) = some p2 := by
  intro l
  induction l with
  | nil =>
    intro p hf
    simp at hf
  | cons a t ih =>
    intro p hf
    by_cases ha : (a.id == i) = true
    · simp only [List.map_cons, if_pos ha]
      exact List.find?_cons_of_pos _ (by simp [hid])
    · rw [List.find?_cons_of_neg t ha] at hf
      have ha2 : (a.id == i) = false := by simpa using ha
      simp only [List.map_cons, ha2, Bool.false_eq_true, if_false,
        List.find?_cons]
      exact ih p hf

/-- C4: `update_payment_by_id` fails with KeyError (→ 404 NotFound) when
no payment has the id; fails with AlreadyProcessed when `processed_at` is
already set, returning no updated store (the row keeps its `confirmed`,
`note` and `processed_at`); and on a pending payment succeeds exactly
once — setting `processed_at = now`, `confirmed` and `note` — after which
the same call fails with AlreadyProcessed and, for a confirmation, the
account's balance has grown by the payment's amount exactly once. -/
theorem C4_process_payment_exactly_once (i : Nat) (c c2 : Bool)
    (note note2 : Option String) (now now2 : Nat) (db : DB)
    (hpw : List.Pairwise (fun a b => a.id ≠ b.id) db.payments) :
    (db.payments.find? (fun x => x.id == i) = none →
      update_payment_by_id i c note now db = Except.error Err.KeyErr)
    ∧ (∀ p, db.payments.find? (fun x => x.id == i) = some p →
        p.processed_at ≠ none →
        update_payment_by_id i c note now db
          = Except.error Err.AlreadyProcessed)
    ∧ (∀ p, db.payments.find? (fun x => x.id == i) = some p →
        p.processed_at = none →
        ∃ db2 p2, update_payment_by_id i c note now db = Except.ok (db2, p2)
          ∧ p2.processed_at = some now ∧ p2.confirmed = c ∧ p2.note = note
          ∧ update_payment_by_id i c2 note2 now2 db2
              = Except.error Err.AlreadyProcessed
          ∧ (c = true →
            get_balance_by_user p.user_id db2
              = get_balance_by_user p.user_id db + p.amount)) := by
  refine ⟨?_, ?_, ?_⟩
  · intro h
    unfold update_payment_by_id
    rw [h]
  · intro p hf hproc
    unfold update_payment_by_id
    rw [hf]
    dsimp only
    rw [if_pos (Option.isSome_iff_ne_none.mpr hproc)]
  · intro p hf hpend
    have hpi : p.id = i := by simpa using List.find?_some hf
    have hisome : p.processed_at.isSome = false := by simp [hpend]
    refine ⟨{ db with payments := db.payments.map (fun x => if x.id == i
        then { p with confirmed := c, note := note, processed_at := some now }
        else x) },
      { p with confirmed := c, note := note, processed_at := some now },
      ?_, rfl, rfl, rfl, ?_, ?_⟩
    · unfold update_payment_by_id
      rw [hf]
      dsimp only
      rw [if_neg (by simp [hisome])]
    · unfold update_payment_by_id
      dsimp only
      rw [find?_map_update i
        { p with confirmed := c, note := note, processed_at := some now }
        hpi db.payments p hf]
      dsimp only
      simp
    · intro _
      have hpay : get_payments_by_user_data p.user_id false
          { db with payments := db.payments.map (fun x => if x.id == i
            then { p with confirmed := c, note := note, processed_at := some now }
            else x) }
          = get_payments_by_user_data p.user_id false db + p.amount :=
        payments_sum_update i p.user_id
          { p with confirmed := c, note := note, processed_at := some now }
          rfl rfl db.payments p hf hpw rfl hpend
      have hexp : get_expenses_by_user_data p.user_id
          { db with payments := db.payments.map (fun x => if x.id == i
            then { p with confirmed := c, note := note, processed_at := some now }
            else x) }
          = get_expenses_by_user_data p.user_id db := rfl
      unfold get_balance_by_user
      rw [hpay, hexp]
      ring

/-- Witness for C4: the pending payment of 10 in `db_c4` is confirmed at
instant 5; the update succeeds, a retry fails with AlreadyProcessed, and
the balance has grown by 10 exactly once. -/
theorem C4_process_payment_witness :
    ∃ db2 p2, update_payment_by_id 1 true (some "received") 5 db_c4
        = Except.ok (db2, p2)
      ∧ p2.processed_at = some 5 ∧ p2.confirmed = true
      ∧ p2.note = some "received"
      ∧ update_payment_by_id 1 false none 9 db2
          = Except.error Err.AlreadyProcessed
      ∧ (true = true →
        get_balance_by_user 1 db2 = get_balance_by_user 1 db_c4 + 10) :=
  (C4_process_payment_exactly_once 1 true false (some "received") none 5 9 db_c4
      (by simp [db_c4])).2.2 ⟨1, 1, 10, 0, none, false, none⟩ rfl rfl

end App
